import Mathlib

/-!
Verification of the Commute Check content script (`src/contentScript.js`).

The script's numeric code runs on JavaScript numbers.  We embed finite
values as real numbers and keep JavaScript's special values (`Infinity`,
`-Infinity`, `NaN`) explicit through the `JSNum` type, so that the
division-by-zero behaviour of the source is modelled faithfully: dividing
a finite value by zero yields an infinity or `NaN` exactly as IEEE-754 /
JavaScript arithmetic does (rounding of finite values is idealised to
exact real arithmetic).
-/

/-- Geographic point `{ lat, lng }` as used by `contentScript.js`. -/
structure GeoPoint where
  lat : ℝ
  lng : ℝ

/-- Viewport bounds `{ north, south, east, west }` in degrees. -/
structure Bounds where
  north : ℝ
  south : ℝ
  east : ℝ
  west : ℝ

/-- Container rectangle `{ top, left, width, height }` in pixels. -/
structure ContainerRect where
  top : ℝ
  left : ℝ
  width : ℝ
  height : ℝ

/-- Viewport: geographic bounds plus on-screen container rectangle. -/
structure Viewport where
  bounds : Bounds
  containerRect : ContainerRect

/-- A JavaScript number: a finite real, an infinity, or `NaN`. -/
inductive JSNum where
  | num : ℝ → JSNum
  | posInf : JSNum
  | negInf : JSNum
  | nan : JSNum

open Classical in
/-- JavaScript division of two finite numbers (the denominator entering as
`+0` when zero, as produced by subtraction of equal finite values):
`0/0 = NaN`, `a/0 = ±Infinity` by the sign of `a`, otherwise real division. -/
noncomputable def jsDivFin (a b : ℝ) : JSNum :=
  if b = 0 then (if a = 0 then .nan else if 0 < a then .posInf else .negInf)
  else .num (a / b)

open Classical in
/-- JavaScript multiplication of a possibly non-finite number by a finite one. -/
noncomputable def jsMulFin (j : JSNum) (w : ℝ) : JSNum :=
  match j with
  | .num x => .num (x * w)
  | .posInf => if 0 < w then .posInf else if w < 0 then .negInf else .nan
  | .negInf => if 0 < w then .negInf else if w < 0 then .posInf else .nan
  | .nan => .nan

/-- A projected pixel point as produced by the script's own projector
(each coordinate a JavaScript number). -/
structure ProjectedPoint where
  x : JSNum
  y : JSNum

/-- `mercY(lat) = Math.log(Math.tan(Math.PI/4 + (lat*Math.PI/180)/2))`
from `projectAll` in `contentScript.js`. -/
noncomputable def mercY (lat : ℝ) : ℝ :=
  Real.log (Real.tan (Real.pi / 4 + (lat * Real.pi / 180) / 2))

/-- `projectAll(points, vp)` from `contentScript.js` (lines 203-212):
longitude is linearly interpolated across the container width, latitude is
sent through `mercY` and then linearly interpolated across the container
height.  The source performs the two divisions unguarded, so degenerate
bounds flow through JavaScript division semantics. -/
noncomputable def projectAll (points : List GeoPoint) (vp : Viewport) : List ProjectedPoint :=
  let b := vp.bounds
  let r := vp.containerRect
  let W := r.width
  let H := r.height
  let yN := mercY b.north
  let yS := mercY b.south
  points.map fun p =>
    { x := jsMulFin (jsDivFin (p.lng - b.west) (b.east - b.west)) W
      y := jsMulFin (jsDivFin (yN - mercY p.lat) (yN - yS)) H }

/-- The Mercator vertical warp is strictly monotone on latitudes strictly
between -90 and 90 degrees. -/
theorem mercY_lt_mercY {a b : ℝ} (ha : -90 < a) (hab : a < b) (hb : b < 90) :
    mercY a < mercY b := by
  have hpi := Real.pi_pos
  have h1 : 0 < Real.pi / 4 + (a * Real.pi / 180) / 2 := by nlinarith
  have h2 : Real.pi / 4 + (b * Real.pi / 180) / 2 < Real.pi / 2 := by nlinarith
  have h3 : Real.pi / 4 + (a * Real.pi / 180) / 2 < Real.pi / 4 + (b * Real.pi / 180) / 2 := by
    nlinarith
  have hta : 0 < Real.tan (Real.pi / 4 + (a * Real.pi / 180) / 2) :=
    Real.tan_pos_of_pos_of_lt_pi_div_two h1 (lt_trans h3 h2)
  have htab :
      Real.tan (Real.pi / 4 + (a * Real.pi / 180) / 2) <
        Real.tan (Real.pi / 4 + (b * Real.pi / 180) / 2) :=
    Real.tan_lt_tan_of_lt_of_lt_pi_div_two (by nlinarith) h2 h3
  exact Real.log_lt_log hta htab

/-- C1: for a non-degenerate viewport (`north > south`, `east > west`,
positive container width and height, bounds latitudes strictly between
-90 and 90 so the Mercator warp is defined), `projectAll` maps the four
bounds corners `{west,north}`, `{east,north}`, `{west,south}`,
`{east,south}` exactly to the container-rect corners `(0,0)`, `(W,0)`,
`(0,H)`, `(W,H)`. -/
theorem projectAll_corners (b : Bounds) (r : ContainerRect)
    (hns : b.south < b.north) (hew : b.west < b.east)
    (hW : 0 < r.width) (hH : 0 < r.height)
    (hs : -90 < b.south) (hn : b.north < 90) :
    projectAll
        [⟨b.north, b.west⟩, ⟨b.north, b.east⟩, ⟨b.south, b.west⟩, ⟨b.south, b.east⟩]
        ⟨b, r⟩ =
      [⟨.num 0, .num 0⟩, ⟨.num r.width, .num 0⟩,
       ⟨.num 0, .num r.height⟩, ⟨.num r.width, .num r.height⟩] := by
  have hew' : b.east - b.west ≠ 0 := sub_ne_zero.mpr (ne_of_gt hew)
  have hm : mercY b.south < mercY b.north := mercY_lt_mercY hs hns hn
  have hyy : mercY b.north - mercY b.south ≠ 0 := sub_ne_zero.mpr (ne_of_gt hm)
  simp [projectAll, jsDivFin, jsMulFin, hew', hyy, sub_self,
    div_self hew', div_self hyy]

/-- Witness for C1 at the spec's end-to-end example viewport. -/
theorem projectAll_corners_witness :
    projectAll
        [⟨53.35, -6.27⟩, ⟨53.35, -6.24⟩, ⟨53.34, -6.27⟩, ⟨53.34, -6.24⟩]
        ⟨⟨53.35, 53.34, -6.24, -6.27⟩, ⟨0, 0, 800, 600⟩⟩ =
      [⟨.num 0, .num 0⟩, ⟨.num 800, .num 0⟩,
       ⟨.num 0, .num 600⟩, ⟨.num 800, .num 600⟩] :=
  projectAll_corners ⟨53.35, 53.34, -6.24, -6.27⟩ ⟨0, 0, 800, 600⟩
    (by norm_num) (by norm_num) (by norm_num) (by norm_num) (by norm_num) (by norm_num)

/-- C2 counter-evidence: `projectAll` performs its divisions unguarded, so a
zero-width geographic span (`east = west`) makes the x coordinate of every
point with `lng ≠ west` equal to an infinity (JavaScript `0.25 / 0 * 800 =
Infinity`), instead of skipping projection as the spec requires. -/
theorem projectAll_degenerate_eval :
    (projectAll [⟨0.5, 0.25⟩] ⟨⟨1, 0, 0, 0⟩, ⟨0, 0, 800, 600⟩⟩).map
        (fun q => q.x) = [JSNum.posInf] := by
  simp only [projectAll, List.map, jsDivFin, jsMulFin]
  norm_num

/-- C3: within a fixed non-degenerate viewport (bounds latitudes strictly
between -90 and 90), projection is strictly monotonic: of two points sharing
a longitude, the one with greater latitude gets a strictly smaller y; of two
points sharing a latitude, the one with greater longitude gets a strictly
larger x. -/
theorem projectAll_monotone (b : Bounds) (r : ContainerRect)
    (hns : b.south < b.north) (hew : b.west < b.east)
    (hW : 0 < r.width) (hH : 0 < r.height)
    (hs : -90 < b.south) (hn : b.north < 90) :
    (∀ lat₁ lat₂ lng, -90 < lat₁ → lat₁ < lat₂ → lat₂ < 90 →
      ∃ x y₁ y₂,
        projectAll [⟨lat₁, lng⟩, ⟨lat₂, lng⟩] ⟨b, r⟩ =
          [⟨.num x, .num y₁⟩, ⟨.num x, .num y₂⟩] ∧ y₂ < y₁) ∧
    (∀ lat lng₁ lng₂, lng₁ < lng₂ →
      ∃ x₁ x₂ y,
        projectAll [⟨lat, lng₁⟩, ⟨lat, lng₂⟩] ⟨b, r⟩ =
          [⟨.num x₁, .num y⟩, ⟨.num x₂, .num y⟩] ∧ x₁ < x₂) := by
  have hew' : b.east - b.west ≠ 0 := sub_ne_zero.mpr (ne_of_gt hew)
  have hewPos : 0 < b.east - b.west := sub_pos.mpr hew
  have hm : mercY b.south < mercY b.north := mercY_lt_mercY hs hns hn
  have hyyPos : 0 < mercY b.north - mercY b.south := sub_pos.mpr hm
  have hyy : mercY b.north - mercY b.south ≠ 0 := ne_of_gt hyyPos
  constructor
  · intro lat₁ lat₂ lng h1 h12 h2
    refine ⟨(lng - b.west) / (b.east - b.west) * r.width,
      (mercY b.north - mercY lat₁) / (mercY b.north - mercY b.south) * r.height,
      (mercY b.north - mercY lat₂) / (mercY b.north - mercY b.south) * r.height, ?_, ?_⟩
    · simp [projectAll, jsDivFin, jsMulFin, hew', hyy]
    · have hlat : mercY lat₁ < mercY lat₂ := mercY_lt_mercY h1 h12 h2
      have hnum : mercY b.north - mercY lat₂ < mercY b.north - mercY lat₁ := by linarith
      exact mul_lt_mul_of_pos_right ((div_lt_div_right hyyPos).mpr hnum) hH
  · intro lat lng₁ lng₂ h12
    refine ⟨(lng₁ - b.west) / (b.east - b.west) * r.width,
      (lng₂ - b.west) / (b.east - b.west) * r.width,
      (mercY b.north - mercY lat) / (mercY b.north - mercY b.south) * r.height, ?_, ?_⟩
    · simp [projectAll, jsDivFin, jsMulFin, hew', hyy]
    · have hnum : lng₁ - b.west < lng₂ - b.west := by linarith
      exact mul_lt_mul_of_pos_right ((div_lt_div_right hewPos).mpr hnum) hW

/-- Witness for C3 on the spec's example viewport: latitude 53.345 versus
53.348 at a shared longitude, and longitude -6.26 versus -6.25 at a shared
latitude. -/
theorem projectAll_monotone_witness :
    (∃ x y₁ y₂,
        projectAll [⟨53.345, -6.255⟩, ⟨53.348, -6.255⟩]
            ⟨⟨53.35, 53.34, -6.24, -6.27⟩, ⟨0, 0, 800, 600⟩⟩ =
          [⟨.num x, .num y₁⟩, ⟨.num x, .num y₂⟩] ∧ y₂ < y₁) ∧
    (∃ x₁ x₂ y,
        projectAll [⟨53.345, -6.26⟩, ⟨53.345, -6.25⟩]
            ⟨⟨53.35, 53.34, -6.24, -6.27⟩, ⟨0, 0, 800, 600⟩⟩ =
          [⟨.num x₁, .num y⟩, ⟨.num x₂, .num y⟩] ∧ x₁ < x₂) := by
  have h := projectAll_monotone ⟨53.35, 53.34, -6.24, -6.27⟩ ⟨0, 0, 800, 600⟩
    (by norm_num) (by norm_num) (by norm_num) (by norm_num) (by norm_num) (by norm_num)
  exact ⟨h.1 53.345 53.348 (-6.255) (by norm_num) (by norm_num) (by norm_num),
    h.2 53.345 (-6.26) (-6.25) (by norm_num)⟩

/-- A pixel point as returned by the host map's own projector
(`pageScript.js` `projectPoint`): finite coordinates, or `null` per point. -/
structure HostPoint where
  x : ℝ
  y : ℝ

/-- The pixel-resolution step of `render` (`contentScript.js` lines 264-273):
`projected` starts `null`; when `instanceAvailable` the host is asked and an
all-`null` (or `null`) response is discarded; if still `null`, the Bridge
viewport feeds `projectAll`, and a `null` viewport aborts the render
(`return`, modelled as `none`).  `hostResp` is the value the awaited
`MapAdapter.project` promise settles to (`none` models the timeout `null`);
it is consulted only when `instanceAvailable` is true, as in the source. -/
noncomputable def resolveProjected (instanceAvailable : Bool)
    (hostResp : Option (List (Option HostPoint))) (vp : Option Viewport)
    (pts : List GeoPoint) : Option (List (Option ProjectedPoint)) :=
  let projected : Option (List (Option HostPoint)) :=
    if instanceAvailable then
      match hostResp with
      | some l => if l.any (fun p => p.isSome) then some l else none
      | none => none
    else none
  match projected with
  | some l => some (l.map (Option.map fun q => ⟨.num q.x, .num q.y⟩))
  | none =>
    match vp with
    | none => none
    | some v => some ((projectAll pts v).map some)

/-- C4: the host projector is used exactly when `instanceAvailable` is true
and its response holds at least one non-null entry; otherwise the Geometry
Projector runs on the Bridge's viewport, and a null viewport makes `render`
return without drawing. -/
theorem resolveProjected_spec (hostResp : Option (List (Option HostPoint)))
    (vp : Option Viewport) (pts : List GeoPoint) :
    (∀ l, hostResp = some l → (l.any fun p => p.isSome) = true →
      resolveProjected true hostResp vp pts =
        some (l.map (Option.map fun q => (⟨.num q.x, .num q.y⟩ : ProjectedPoint)))) ∧
    (∀ ia, (ia = false ∨ hostResp = none ∨
        ∃ l, hostResp = some l ∧ (l.any fun p => p.isSome) = false) →
      resolveProjected ia hostResp vp pts =
        match vp with
        | some v => some ((projectAll pts v).map some)
        | none => none) := by
  constructor
  · rintro l rfl hl
    simp [resolveProjected, hl]
  · rintro ia (rfl | rfl | ⟨l, rfl, hl⟩)
    · cases vp <;> simp [resolveProjected]
    · cases ia <;> cases vp <;> simp [resolveProjected]
    · cases ia <;> cases vp <;> simp [resolveProjected, hl]

/-- Witness for C4: a host response with one non-null entry is preferred, and
with the host unavailable the fallback uses the Bridge viewport. -/
theorem resolveProjected_spec_witness :
    resolveProjected true (some [some ⟨10, 20⟩, none]) none [] =
      some [some ⟨.num 10, .num 20⟩, none] ∧
    resolveProjected false (some [some ⟨10, 20⟩, none]) none [] = none := by
  constructor
  · exact (resolveProjected_spec (some [some ⟨10, 20⟩, none]) none []).1
      [some ⟨10, 20⟩, none] rfl (by simp)
  · exact (resolveProjected_spec (some [some ⟨10, 20⟩, none]) none []).2
      false (Or.inl rfl)

/-- The mutable state of `MapAdapter` in `contentScript.js`: the
`instanceAvailable` and `found` flags, the last pushed viewport, the
pending-projection correlation table (the set of request identifiers whose
resolver is still stored), and the request-id counter. -/
structure AdapterState where
  instanceAvailable : Bool
  found : Bool
  viewport : Option Viewport
  pendingProjections : Finset ℕ
  projIdCounter : ℕ

/-- `MapAdapter.detect()`: queries the DOM for a map container element; when
one is present it records it and sets `found`; it never resets `found`.
The DOM query result is passed in as `domContainer`. -/
def MapAdapter.detect (st : AdapterState) (domContainer : Bool) : AdapterState :=
  if domContainer then { st with found := true } else st

/-- The incoming messages `MapAdapter.handleMessage` dispatches on; `other`
stands for any message type outside the four handled cases. -/
inductive AdapterMsg where
  | mapFound
  | mapNotFound
  | mapViewport (payload : Viewport)
  | projectResponse (id : ℕ) (points : List (Option HostPoint))
  | other

/-- `MapAdapter.handleMessage(data)` (`contentScript.js` lines 114-135).
The second component records the resolution this message performed: the
request id and points payload handed to a stored pending resolver, or
`none` when no promise was resolved. -/
def MapAdapter.handleMessage (st : AdapterState) (domContainer : Bool)
    (m : AdapterMsg) : AdapterState × Option (ℕ × List (Option HostPoint)) :=
  match m with
  | .mapFound =>
      (MapAdapter.detect { st with instanceAvailable := true, found := true } domContainer, none)
  | .mapNotFound =>
      (MapAdapter.detect { st with instanceAvailable := false } domContainer, none)
  | .mapViewport p => ({ st with viewport := some p }, none)
  | .projectResponse id pts =>
      if id ∈ st.pendingProjections then
        ({ st with pendingProjections := st.pendingProjections.erase id }, some (id, pts))
      else (st, none)
  | .other => (st, none)

/-- `MapAdapter.project(points)` (`contentScript.js` lines 97-112): bumps the
id counter, stores the new promise's resolver in the pending table, posts the
request, and schedules a 1000ms timeout.  Returned: the new state, the
request id, and the scheduled timeout delay in milliseconds. -/
def MapAdapter.project (st : AdapterState) : AdapterState × ℕ × ℕ :=
  let id := st.projIdCounter + 1
  ({ st with projIdCounter := id,
             pendingProjections := insert id st.pendingProjections }, id, 1000)

/-- The `setTimeout` callback inside `MapAdapter.project`: if the request is
still pending, its table entry is deleted and its promise resolved with
`null`.  The second component is `some none` when a promise was resolved
(with the null value), `none` when nothing happened. -/
def MapAdapter.projectTimeout (st : AdapterState) (id : ℕ) :
    AdapterState × Option (Option (List (Option HostPoint))) :=
  if id ∈ st.pendingProjections then
    ({ st with pendingProjections := st.pendingProjections.erase id }, some none)
  else (st, none)

/-- C5: a projection request still pending at its 1000ms deadline resolves to
null (never rejects) and is removed from the table; the timeout path leaves
`instanceAvailable` untouched, and across every adapter operation that flag
becomes true only by handling a map-found message and false only by handling
a map-not-found message. -/
theorem projectTimeout_resolves_null (st : AdapterState) (id : ℕ)
    (domContainer : Bool) (v : Viewport) (pts : List (Option HostPoint)) :
    (id ∈ st.pendingProjections →
      MapAdapter.projectTimeout st id =
        ({ st with pendingProjections := st.pendingProjections.erase id }, some none)) ∧
    (MapAdapter.projectTimeout st id).1.instanceAvailable = st.instanceAvailable ∧
    (MapAdapter.project st).2.2 = 1000 ∧
    (MapAdapter.project st).1.instanceAvailable = st.instanceAvailable ∧
    (MapAdapter.handleMessage st domContainer .mapFound).1.instanceAvailable = true ∧
    (MapAdapter.handleMessage st domContainer .mapNotFound).1.instanceAvailable = false ∧
    (MapAdapter.handleMessage st domContainer (.mapViewport v)).1.instanceAvailable
      = st.instanceAvailable ∧
    (MapAdapter.handleMessage st domContainer (.projectResponse id pts)).1.instanceAvailable
      = st.instanceAvailable ∧
    (MapAdapter.handleMessage st domContainer .other).1.instanceAvailable
      = st.instanceAvailable := by
  refine ⟨fun h => by simp [MapAdapter.projectTimeout, h], ?_, rfl, rfl, ?_, ?_, rfl, ?_, rfl⟩
  · by_cases h : id ∈ st.pendingProjections <;> simp [MapAdapter.projectTimeout, h]
  · cases domContainer <;> simp [MapAdapter.handleMessage, MapAdapter.detect]
  · cases domContainer <;> simp [MapAdapter.handleMessage, MapAdapter.detect]
  · by_cases h : id ∈ st.pendingProjections <;> simp [MapAdapter.handleMessage, h]

/-- Witness for C5 at a concrete pending request. -/
theorem projectTimeout_resolves_null_witness :
    MapAdapter.projectTimeout ⟨false, false, none, {3}, 3⟩ 3 =
      (⟨false, false, none, ({3} : Finset ℕ).erase 3, 3⟩, some none) :=
  (projectTimeout_resolves_null ⟨false, false, none, {3}, 3⟩ 3 false
    ⟨⟨0, 0, 0, 0⟩, ⟨0, 0, 0, 0⟩⟩ []).1 (by decide)

/-- C6: every `MapAdapter.project` call receives an identifier distinct from
all ids still in flight (given that in-flight ids never exceed the counter,
an invariant every operation preserves); a matching projection response
resolves the promise with its points payload and deletes the table entry; a
timeout resolves it with null and deletes the entry; after either deletion
the id is no longer pending, so nothing can resolve it a second time; and a
response whose id matches no pending entry leaves the state unchanged and
resolves nothing (as does a timeout for a non-pending id). -/
theorem project_correlation (st : AdapterState) (id : ℕ)
    (pts : List (Option HostPoint)) (domContainer : Bool) :
    ((∀ j ∈ st.pendingProjections, j ≤ st.projIdCounter) →
      (MapAdapter.project st).2.1 ∉ st.pendingProjections ∧
      ∀ j ∈ (MapAdapter.project st).1.pendingProjections,
        j ≤ (MapAdapter.project st).1.projIdCounter) ∧
    (id ∈ st.pendingProjections →
      MapAdapter.handleMessage st domContainer (.projectResponse id pts) =
        ({ st with pendingProjections := st.pendingProjections.erase id }, some (id, pts)) ∧
      id ∉ st.pendingProjections.erase id) ∧
    (id ∈ st.pendingProjections →
      MapAdapter.projectTimeout st id =
        ({ st with pendingProjections := st.pendingProjections.erase id }, some none) ∧
      id ∉ st.pendingProjections.erase id) ∧
    (id ∉ st.pendingProjections →
      MapAdapter.handleMessage st domContainer (.projectResponse id pts) = (st, none)) ∧
    (id ∉ st.pendingProjections → MapAdapter.projectTimeout st id = (st, none)) := by
  refine ⟨fun h => ⟨fun hmem => ?_, fun j hj => ?_⟩,
    fun h => ⟨by simp [MapAdapter.handleMessage, h], Finset.not_mem_erase id _⟩,
    fun h => ⟨by simp [MapAdapter.projectTimeout, h], Finset.not_mem_erase id _⟩,
    fun h => by simp [MapAdapter.handleMessage, h],
    fun h => by simp [MapAdapter.projectTimeout, h]⟩
  · exact absurd (h _ hmem) (by simp [MapAdapter.project])
  · simp only [MapAdapter.project, Finset.mem_insert] at hj ⊢
    rcases hj with rfl | hj
    · exact le_refl _
    · exact le_trans (h j hj) (Nat.le_succ _)

/-- Witness for C6: starting from a state with pending ids `{1, 2}` and
counter 2, a fresh call takes id 3 and a response for id 2 resolves it. -/
theorem project_correlation_witness :
    ((MapAdapter.project ⟨true, true, none, {1, 2}, 2⟩).2.1 ∉ ({1, 2} : Finset ℕ) ∧
      ∀ j ∈ (MapAdapter.project ⟨true, true, none, {1, 2}, 2⟩).1.pendingProjections,
        j ≤ (MapAdapter.project ⟨true, true, none, {1, 2}, 2⟩).1.projIdCounter) ∧
    (MapAdapter.handleMessage ⟨true, true, none, {1, 2}, 2⟩ true (.projectResponse 2 []) =
      (⟨true, true, none, ({1, 2} : Finset ℕ).erase 2, 2⟩, some (2, [])) ∧
      2 ∉ ({1, 2} : Finset ℕ).erase 2) := by
  have h := project_correlation ⟨true, true, none, {1, 2}, 2⟩ 2 [] true
  exact ⟨h.1 (by decide), h.2.1 (by decide)⟩

/-- JavaScript subtraction extended to non-finite operands. -/
noncomputable def jsSub : JSNum → JSNum → JSNum
  | .nan, _ => .nan
  | _, .nan => .nan
  | .num a, .num b => .num (a - b)
  | .num _, .posInf => .negInf
  | .num _, .negInf => .posInf
  | .posInf, .num _ => .posInf
  | .negInf, .num _ => .negInf
  | .posInf, .negInf => .posInf
  | .negInf, .posInf => .negInf
  | .posInf, .posInf => .nan
  | .negInf, .negInf => .nan

/-- `Math.abs` on a JavaScript number. -/
noncomputable def jsAbs : JSNum → JSNum
  | .num a => .num |a|
  | .posInf => .posInf
  | .negInf => .posInf
  | .nan => .nan

/-- The JavaScript comparison `j > 0` (false for `NaN`). -/
def jsPos : JSNum → Prop
  | .num a => 0 < a
  | .posInf => True
  | _ => False

open Classical in
/-- JavaScript division of a possibly non-finite number by a finite one
(a zero denominator arising from a product of finite values enters as `+0`). -/
noncomputable def jsDivByFin (j : JSNum) (d : ℝ) : JSNum :=
  match j with
  | .num a => jsDivFin a d
  | .posInf => if 0 ≤ d then .posInf else .negInf
  | .negInf => if 0 ≤ d then .negInf else .posInf
  | .nan => .nan

open Classical in
/-- The pixel-per-meter computation in `render` (`contentScript.js` lines
276-291).  With a viewport present, `_pxPerMeter` is set to
`containerRect.width / (degLngSpan * 111320 * cos(midLat))` with no guard on
the longitude span; with no viewport and at least two gathered points, it is
inferred from the first two projected points, guarded by
`dLng > 0 && dPx > 0`; otherwise `_pxPerMeter` keeps its previous value. -/
noncomputable def computePxPerMeter (vp2 : Option Viewport) (pts : List GeoPoint)
    (projected : List ProjectedPoint) (pxPerMeter : JSNum) : JSNum :=
  match vp2 with
  | some vp =>
      let degLngSpan := vp.bounds.east - vp.bounds.west
      let midLat := (vp.bounds.north + vp.bounds.south) / 2
      let metersPerDegLng := 111320 * Real.cos (midLat * Real.pi / 180)
      jsDivFin vp.containerRect.width (degLngSpan * metersPerDegLng)
  | none =>
      match pts, projected with
      | p0 :: p1 :: _, q0 :: q1 :: _ =>
          let dLng := |p1.lng - p0.lng|
          let dPx := jsAbs (jsSub q1.x q0.x)
          if 0 < dLng ∧ jsPos dPx then
            let midLat := (p0.lat + p1.lat) / 2
            let metersPerDegLng := 111320 * Real.cos (midLat * Real.pi / 180)
            jsDivByFin dPx (dLng * metersPerDegLng)
          else pxPerMeter
      | _, _ => pxPerMeter

/-- C7 counter-evidence: in the preferred viewport branch the longitude span
is not guarded, so a zero-width span sets the scale factor to
`width / 0 = Infinity` instead of aborting the sub-computation: the claim
that both branches keep the factor finite fails on the code.  (The fallback
branch is indeed guarded by `dLng > 0 && dPx > 0`.) -/
theorem computePxPerMeter_degenerate_eval :
    computePxPerMeter (some ⟨⟨1, -1, 0, 0⟩, ⟨0, 0, 800, 600⟩⟩) [] [] (.num 0) =
      JSNum.posInf := by
  simp only [computePxPerMeter, jsDivFin]
  norm_num

/-- The three walking-radius settings keys. -/
inductive WalkKey where
  | walkRadius5
  | walkRadius10
  | walkRadius20

/-- The walking-radius toggles from the settings object. -/
structure WalkSettings where
  walkRadius5 : Bool
  walkRadius10 : Bool
  walkRadius20 : Bool

/-- `settings[r.key]` lookup. -/
def WalkSettings.get (s : WalkSettings) : WalkKey → Bool
  | .walkRadius5 => s.walkRadius5
  | .walkRadius10 => s.walkRadius10
  | .walkRadius20 => s.walkRadius20

/-- One entry of the `WALK_RADII` constant. -/
structure WalkRadiusSpec where
  key : WalkKey
  meters : ℝ
  label : String
  color : String

/-- The `WALK_RADII` constant (`contentScript.js` lines 179-183). -/
noncomputable def WALK_RADII : List WalkRadiusSpec :=
  [⟨.walkRadius5, 360, "5 min", "#22c55e"⟩,
   ⟨.walkRadius10, 720, "10 min", "#eab308"⟩,
   ⟨.walkRadius20, 1440, "20 min", "#ef4444"⟩]

/-- One ring drawn by `showWalkRadius`: the dashed circle (centre, radius in
pixels, colour) together with its time label and the label's y position. -/
structure WalkRing where
  cx : ℝ
  cy : ℝ
  r : ℝ
  color : String
  label : String
  labelY : ℝ

open Classical in
/-- `showWalkRadius(g)` (`contentScript.js` lines 353-390), as the list of
rings it appends to the overlay: nothing when `_pxPerMeter <= 0` or when no
radius setting is on; otherwise one ring of radius `r.meters * _pxPerMeter`
per enabled entry of `WALK_RADII`, in order. -/
noncomputable def showWalkRadius (s : WalkSettings) (pxPerMeter : ℝ)
    (cx cy : ℝ) : List WalkRing :=
  if pxPerMeter ≤ 0 then []
  else if !(WALK_RADII.any fun r => s.get r.key) then []
  else
    (WALK_RADII.filter fun r => s.get r.key).map fun r =>
      let px := r.meters * pxPerMeter
      ⟨cx, cy, px, r.color, r.label, cy - px - 5⟩

/-- C8: on hover with a positive pixel-per-meter factor, all three radius
settings off yields zero rings, and enabling exactly `walkRadius10` yields
exactly one ring whose radius is `720 * pxPerMeter`. -/
theorem showWalkRadius_rings (m cx cy : ℝ) (hm : 0 < m) :
    showWalkRadius ⟨false, false, false⟩ m cx cy = [] ∧
    ∃ ring, showWalkRadius ⟨false, true, false⟩ m cx cy = [ring] ∧
      ring.r = 720 * m := by
  have hm' : ¬ m ≤ 0 := not_le.mpr hm
  constructor
  · simp [showWalkRadius, WALK_RADII, WalkSettings.get, hm']
  · exact ⟨⟨cx, cy, 720 * m, "#eab308", "10 min", cy - 720 * m - 5⟩,
      by simp [showWalkRadius, WALK_RADII, WalkSettings.get, hm', List.filter], rfl⟩

/-- Witness for C8 at `pxPerMeter = 1`. -/
theorem showWalkRadius_rings_witness :
    showWalkRadius ⟨false, false, false⟩ 1 0 0 = [] ∧
    ∃ ring, showWalkRadius ⟨false, true, false⟩ 1 0 0 = [ring] ∧
      ring.r = 720 * 1 :=
  showWalkRadius_rings 1 0 0 (by norm_num)

/-- `scheduleRender()` (`contentScript.js` lines 428-436) acting on the
scheduler state: `renderTimer` truthiness and the `lastRender` timestamp.
Returns the new pending flag together with the `setTimeout` delay it
schedules (`none` when the call returns early because a timer is pending). -/
def scheduleRender (renderTimer : Bool) (lastRender now : ℤ) : Bool × Option ℤ :=
  if renderTimer then (renderTimer, none)
  else (true, some (max 0 (50 - (now - lastRender))))

/-- C9: a `scheduleRender` call while a timer is pending schedules nothing
new; otherwise it marks a timer pending and schedules a non-negative delay
`max(0, 50 - (now - lastRender))` that guarantees the render fires no
earlier than 50ms after the last completed render, and that is zero as soon
as 50ms have already elapsed. -/
theorem scheduleRender_debounce (rt : Bool) (lastRender now : ℤ) :
    (rt = true → scheduleRender rt lastRender now = (rt, none)) ∧
    (rt = false → ∃ d, scheduleRender rt lastRender now = (true, some d) ∧
      0 ≤ d ∧ lastRender + 50 ≤ now + d ∧ (50 ≤ now - lastRender → d = 0)) := by
  constructor
  · rintro rfl
    simp [scheduleRender]
  · rintro rfl
    refine ⟨max 0 (50 - (now - lastRender)), by simp [scheduleRender], le_max_left _ _, ?_, ?_⟩
    · have h := le_max_right 0 (50 - (now - lastRender))
      linarith
    · intro h
      exact max_eq_left (by linarith)

/-- Witness for C9: no timer pending, last render 30ms ago. -/
theorem scheduleRender_debounce_witness :
    ∃ d, scheduleRender false 0 30 = (true, some d) ∧
      0 ≤ d ∧ (0 : ℤ) + 50 ≤ 30 + d ∧ (50 ≤ (30 : ℤ) - 0 → d = 0) :=
  (scheduleRender_debounce false 0 30).2 rfl

/-- A DOM bounding client rectangle as read by `_viewportFromURL`. -/
structure DOMRectData where
  top : ℝ
  left : ℝ
  width : ℝ
  height : ℝ

/-- The `parseFloat` results of the four URL bound query parameters in
`_viewportFromURL`; `none` models a `NaN` result (parameter absent or not
parseable as a number). -/
structure URLBoundsParams where
  top : Option ℝ
  bottom : Option ℝ
  left : Option ℝ
  right : Option ℝ

open Classical in
/-- `MapAdapter._viewportFromURL()` (`contentScript.js` lines 137-150):
`null` when any of the four parsed bound parameters is `NaN`, when no map
container has been detected, or when the container rectangle has zero
width; otherwise the viewport built from the parameters and the rectangle. -/
noncomputable def viewportFromURL (params : URLBoundsParams)
    (container : Option DOMRectData) : Option Viewport :=
  match params.top, params.bottom, params.left, params.right with
  | some n, some s, some w, some e =>
      match container with
      | none => none
      | some r =>
          if r.width = 0 then none
          else some ⟨⟨n, s, e, w⟩, ⟨r.top, r.left, r.width, r.height⟩⟩
  | _, _, _, _ => none

/-- `MapAdapter.getViewport()` (`contentScript.js` lines 88-91): the last
pushed viewport when one exists, else the URL reconstruction. -/
noncomputable def getViewport (pushed : Option Viewport)
    (params : URLBoundsParams) (container : Option DOMRectData) : Option Viewport :=
  match pushed with
  | some v => some v
  | none => viewportFromURL params container

/-- C10: with no pushed viewport, `getViewport` returns null whenever a bound
parameter fails to parse, and also — even with all four parameters valid —
whenever no container was detected or the container rectangle has zero
width; a zero-height rectangle is nevertheless accepted and yields a
non-null viewport. -/
theorem getViewport_url_guards (n s w e : ℝ) (r : DOMRectData) :
    (∀ p : URLBoundsParams, ∀ c,
      (p.top = none ∨ p.bottom = none ∨ p.left = none ∨ p.right = none) →
      getViewport none p c = none) ∧
    getViewport none ⟨some n, some s, some w, some e⟩ none = none ∧
    (r.width = 0 → getViewport none ⟨some n, some s, some w, some e⟩ (some r) = none) ∧
    (r.width ≠ 0 → r.height = 0 →
      (getViewport none ⟨some n, some s, some w, some e⟩ (some r)).isSome = true) := by
  refine ⟨fun p c hp => ?_, rfl, fun h0 => ?_, fun hne _ => ?_⟩
  · obtain ⟨pt, pb, pl, pr⟩ := p
    cases pt <;> cases pb <;> cases pl <;> cases pr <;>
      simp_all [getViewport, viewportFromURL]
  · simp [getViewport, viewportFromURL, h0]
  · simp [getViewport, viewportFromURL, hne]

/-- Witness for C10: a missing `top` parameter, a zero-width rectangle, and a
zero-height rectangle, all with otherwise valid data. -/
theorem getViewport_url_guards_witness :
    getViewport none ⟨none, some 53.34, some (-6.27), some (-6.24)⟩
        (some ⟨0, 0, 800, 600⟩) = none ∧
    getViewport none ⟨some 53.35, some 53.34, some (-6.27), some (-6.24)⟩
        (some ⟨0, 0, 0, 600⟩) = none ∧
    (getViewport none ⟨some 53.35, some 53.34, some (-6.27), some (-6.24)⟩
        (some ⟨0, 0, 800, 0⟩)).isSome = true := by
  have h1 := getViewport_url_guards 53.35 53.34 (-6.27) (-6.24) ⟨0, 0, 0, 600⟩
  have h2 := getViewport_url_guards 53.35 53.34 (-6.27) (-6.24) ⟨0, 0, 800, 0⟩
  exact ⟨h1.1 ⟨none, some 53.34, some (-6.27), some (-6.24)⟩ (some ⟨0, 0, 800, 600⟩)
      (Or.inl rfl),
    h1.2.2.1 rfl, h2.2.2.2 (by norm_num) rfl⟩
